import Mathlib

/-!
Verification of the OFM-ExternalFlash repository: a W25Q128 SPI-NOR flash
block-device driver (`src/W25Q128.cpp`) and a LittleFS filesystem adapter
(`src/ext_LittleFS.h`, `src/ext_littleFS.cpp`).

The external LittleFS library (`lfs_mount`, `lfs_format`, `lfs_setattr`, ...)
is not part of the repository; its calls are modelled as an oracle
(`LfsEnv` plus a stream of mount results in `St`) and every call the adapter
makes to it is recorded in an event trace (`Ev`).  The flash chip itself is
only reachable through those library calls, so an empty event trace implies
that no block-device read, program or erase was issued.
-/

namespace ExternalFlash

/-! ## W25Q128 driver: `W25Q128::program` (src/W25Q128.cpp lines 141-168)

The C++ loop is

    size_t pageSize = 256;
    size_t written = 0;
    while (written < size) {
        size_t chunkSize = min(pageSize, size - written);
        ... one CMD_PAGE_PROGRAM command at `addr` carrying `chunkSize` bytes ...
        addr += chunkSize;
        written += chunkSize;
    }

`programChunks addr size` returns the list of page-program commands the loop
issues, each as a pair (start address, number of bytes written). -/

def pageSize : Nat := 256

def programChunks (addr : Nat) (rem : Nat) : List (Nat × Nat) :=
  if h : rem = 0 then []
  else
    let chunkSize := min pageSize rem
    (addr, chunkSize) :: programChunks (addr + chunkSize) (rem - chunkSize)
termination_by rem
decreasing_by
  simp only [pageSize]
  omega

theorem programChunks_zero (a : Nat) : programChunks a 0 = [] := by
  rw [programChunks]
  simp

theorem programChunks_pos (a n : Nat) (h : n ≠ 0) :
    programChunks a n = (a, min 256 n) :: programChunks (a + min 256 n) (n - min 256 n) := by
  rw [programChunks]
  simp [h, pageSize]

/-- A page-program command `(start, len)` stays inside one 256-byte page iff
its first and last written bytes lie in the same page. -/
def samePage (c : Nat × Nat) : Bool :=
  decide (c.1 / 256 = (c.1 + c.2 - 1) / 256)

/-- The loop's address bookkeeping: the first command starts at the loop's
start address and each later command starts where the previous one ended. -/
def contiguousFrom : Nat → List (Nat × Nat) → Bool
  | _, [] => true
  | a, (s, c) :: rest => decide (s = a) && contiguousFrom (s + c) rest

theorem programChunks_sizes (a n : Nat) :
    ∀ c ∈ programChunks a n, 0 < c.2 ∧ c.2 ≤ 256 := by
  induction n using Nat.strong_induction_on generalizing a with
  | _ n ih =>
    rcases Nat.eq_zero_or_pos n with hz | hp
    · subst hz
      simp [programChunks_zero]
    · rw [programChunks_pos a n (Nat.pos_iff_ne_zero.mp hp)]
      intro c hc
      rcases List.mem_cons.mp hc with h | h
      · subst h
        constructor
        · simp only [lt_min_iff]
          omega
        · exact min_le_left _ _
      · exact ih (n - min 256 n) (by omega) _ _ h

theorem programChunks_sum (a n : Nat) :
    ((programChunks a n).map Prod.snd).sum = n := by
  induction n using Nat.strong_induction_on generalizing a with
  | _ n ih =>
    rcases Nat.eq_zero_or_pos n with hz | hp
    · subst hz
      simp [programChunks_zero]
    · rw [programChunks_pos a n (Nat.pos_iff_ne_zero.mp hp)]
      simp only [List.map_cons, List.sum_cons]
      rw [ih (n - min 256 n) (by omega)]
      omega

theorem programChunks_length (a n : Nat) :
    (programChunks a n).length = (n + 255) / 256 := by
  induction n using Nat.strong_induction_on generalizing a with
  | _ n ih =>
    rcases Nat.eq_zero_or_pos n with hz | hp
    · subst hz
      simp [programChunks_zero]
    · rw [programChunks_pos a n (Nat.pos_iff_ne_zero.mp hp)]
      simp only [List.length_cons]
      rw [ih (n - min 256 n) (by omega)]
      omega

theorem programChunks_contiguous (a n : Nat) :
    contiguousFrom a (programChunks a n) = true := by
  induction n using Nat.strong_induction_on generalizing a with
  | _ n ih =>
    rcases Nat.eq_zero_or_pos n with hz | hp
    · subst hz
      simp [programChunks_zero, contiguousFrom]
    · rw [programChunks_pos a n (Nat.pos_iff_ne_zero.mp hp)]
      simp only [contiguousFrom, decide_eq_true_eq, Bool.and_eq_true]
      refine ⟨by simp, ih (n - min 256 n) (by omega) _⟩

theorem programChunks_samePage_of_aligned (a n : Nat) (ha : a % 256 = 0) :
    ∀ c ∈ programChunks a n, samePage c = true := by
  induction n using Nat.strong_induction_on generalizing a with
  | _ n ih =>
    rcases Nat.eq_zero_or_pos n with hz | hp
    · subst hz
      simp [programChunks_zero]
    · rw [programChunks_pos a n (Nat.pos_iff_ne_zero.mp hp)]
      intro c hc
      rcases List.mem_cons.mp hc with h | h
      · subst h
        simp only [samePage, decide_eq_true_eq]
        have h1 : 0 < min 256 n := by omega
        have h2 : min 256 n ≤ 256 := min_le_left _ _
        obtain ⟨m, hm⟩ : ∃ m, min 256 n = m := ⟨_, rfl⟩
        rw [hm] at h1 h2 ⊢
        omega
      · rcases Nat.lt_or_ge n 256 with hlt | hge
        · have hmin : min 256 n = n := by omega
          rw [hmin, Nat.sub_self, programChunks_zero] at h
          simp at h
        · have hmin : min 256 n = 256 := by omega
          rw [hmin] at h
          exact ih (n - 256) (by omega) (a + 256) (by simp [Nat.add_mod, ha]) _ h

/-! ## Filesystem adapter: oracle model of the LittleFS library

`ext_LittleFSImpl` (src/ext_LittleFS.h) drives the external LittleFS library.
Each library call is recorded as an event; the library's return codes are
supplied by an oracle `LfsEnv`, except `lfs_mount` results, which are drawn
in order from the stream `St.mounts` because `begin`/`format` may mount
several times in one call. -/

/-- Result of the main `lfs_file_open` call in `ext_LittleFSImpl::open`:
success, `LFS_ERR_ISDIR`, or any other error. -/
inductive OpenRc where
  | ok
  | isdir
  | err
  deriving DecidableEq, Repr

/-- One call into the LittleFS library (the only route to the flash chip). -/
inductive Ev where
  | mount (ok : Bool)
  | unmount
  | lfsFormat (ok : Bool)
  | setattr (key : Char) (ok : Bool)
  | getattrE (key : Char)
  | statP (path : List Char)
  | renameP (pathFrom pathTo : List Char)
  | removeP (path : List Char)
  | mkdirP (path : List Char)
  | fileOpen
  | fileClose
  | fileSync
  | fileRead
  | fileWrite
  | fileSeek
  | fileTell
  | fileTrunc
  | fileSizeQ
  | dirOpenP (path : List Char)
  | dirRead
  deriving DecidableEq, Repr

/-- Oracle for the return values of the LittleFS library calls. -/
structure LfsEnv where
  formatOk : Bool                -- lfs_format result (0 iff true)
  hasTimeCallback : Bool         -- whether FSImpl::_timeCallback is set
  setattrC : Bool                -- lfs_setattr result for key 'c'
  setattrT : Bool                -- lfs_setattr result for key 't'
  timeNow : Int                  -- value returned by _timeCallback()
  statOk : Bool                  -- lfs_stat result
  statIsDir : Bool               -- lfs_stat info.type == LFS_TYPE_DIR
  statSize : Nat                 -- lfs_stat info.size
  attrC : Option (Nat × Int)     -- stored attribute 'c': (byte size, value)
  attrT : Option (Nat × Int)     -- stored attribute 't': (byte size, value)
  renameOk : Bool                -- lfs_rename result
  removeOk : Bool                -- lfs_remove result on the target itself
  mkdirOk : Bool                 -- lfs_mkdir result
  fileExists : Bool              -- probe open (LFS_O_RDONLY) succeeded
  openRc : OpenRc                -- main lfs_file_open result
  dirOpenOk : Bool               -- lfs_dir_open result
  dirStat : Option Bool          -- openDir stat: none = fail, some b = isDir b
  writeRc : Int                  -- lfs_file_write result
  readRc : Int                   -- lfs_file_read result
  seekRc : Int                   -- lfs_file_seek result
  tellRc : Int                   -- lfs_file_tell result
  truncRc : Int                  -- lfs_file_truncate result
  fileSz : Nat                   -- lfs_file_size result
  deriving DecidableEq, Repr

/-- Geometry handed to the adapter constructor. -/
structure FSCfg where
  size : Nat          -- _size
  autoFormat : Bool   -- _cfg._autoFormat
  deriving DecidableEq, Repr

/-- Mutable adapter state: the `_mounted` flag plus the oracle stream of
`lfs_mount` results still to be consumed. -/
structure St where
  mounted : Bool
  mounts : List Bool
  deriving DecidableEq, Repr

/-- `ext_LittleFSImpl::_tryMount` (src/ext_LittleFS.h lines 542-556):
unmount if mounted, then `lfs_mount`; `_mounted` is set to the result. -/
def tryMount (s : St) : Bool × St × List Ev :=
  let p := if s.mounted then (({ s with mounted := false } : St), [Ev.unmount]) else (s, [])
  let r := p.1.mounts.headD false
  (r, { mounted := r, mounts := p.1.mounts.tail }, p.2 ++ [Ev.mount r])

/-- Tail of `ext_LittleFSImpl::format`: `if (wasMounted) return _tryMount();
return true;` (src/ext_LittleFS.h lines 458-463). -/
def fsFormatTail (wasMounted : Bool) (s : St) (acc : List Ev) : Bool × St × List Ev :=
  if wasMounted then
    let t := tryMount s
    (t.1, t.2.1, acc ++ t.2.2)
  else (true, s, acc)

/-- `ext_LittleFSImpl::format` (src/ext_LittleFS.h lines 412-464). -/
def fsFormat (env : LfsEnv) (cfg : FSCfg) (s : St) : Bool × St × List Ev :=
  if cfg.size = 0 then (false, s, [])
  else
    let wasMounted := s.mounted
    let p := if s.mounted then (({ s with mounted := false } : St), [Ev.unmount]) else (s, [])
    let s1 := p.1
    let e2 := p.2 ++ [Ev.lfsFormat env.formatOk]
    if env.formatOk = false then (false, s1, e2)
    else if env.hasTimeCallback then
      let t := tryMount s1
      let s2 := t.2.1
      if t.1 then
        let e4 := e2 ++ t.2.2 ++ [Ev.setattr 'c' env.setattrC]
        if env.setattrC = false then (false, s2, e4)
        else
          let e5 := e4 ++ [Ev.setattr 't' env.setattrT]
          if env.setattrT = false then (false, s2, e5)
          else fsFormatTail wasMounted { s2 with mounted := false } (e5 ++ [Ev.unmount])
      else fsFormatTail wasMounted s2 (e2 ++ t.2.2)
    else fsFormatTail wasMounted s1 e2

/-- `W25Q128::begin` ends in `return true;` unconditionally
(src/W25Q128.cpp line 58); it only initializes pins and the SPI port. -/
def extFlashBeginOk : Bool := true

/-- `ext_LittleFSImpl::begin` (src/ext_LittleFS.h lines 364-392). -/
def fsBegin (env : LfsEnv) (cfg : FSCfg) (s : St) : Bool × St × List Ev :=
  if extFlashBeginOk then
    if s.mounted then (true, s, [])
    else if cfg.size = 0 then (false, s, [])
    else
      let t1 := tryMount s
      if t1.1 then (true, t1.2.1, t1.2.2)
      else if cfg.autoFormat = false then (false, t1.2.1, t1.2.2)
      else
        let f := fsFormat env cfg t1.2.1
        if f.1 = false then (false, f.2.1, t1.2.2 ++ f.2.2)
        else
          let t2 := tryMount f.2.1
          (t2.1, t2.2.1, t1.2.2 ++ f.2.2 ++ t2.2.2)
  else (false, s, [])

/-- `ext_LittleFSImpl::end` (src/ext_LittleFS.h lines 397-405). -/
def fsEnd (s : St) : St × List Ev :=
  if s.mounted then ({ s with mounted := false }, [Ev.unmount]) else (s, [])

def isMountEv : Ev → Bool
  | .mount _ => true
  | _ => false

def isFormatEv : Ev → Bool
  | .lfsFormat _ => true
  | _ => false

def countMountEvs (l : List Ev) : Nat := (l.filter isMountEv).length

/-- Events strictly after the (first) `lfs_format` call in a trace. -/
def afterFormatEvents (l : List Ev) : List Ev :=
  (l.dropWhile (fun e => !isFormatEv e)).drop 1

/-- Baseline oracle used by concrete witnesses: every library call succeeds,
no time callback, no stored attributes. -/
def envDefault : LfsEnv :=
  { formatOk := true, hasTimeCallback := false, setattrC := true, setattrT := true,
    timeNow := 7, statOk := true, statIsDir := false, statSize := 0,
    attrC := none, attrT := none, renameOk := true, removeOk := true,
    mkdirOk := true, fileExists := false, openRc := .ok, dirOpenOk := true,
    dirStat := none, writeRc := 0, readRc := 0, seekRc := 0, tellRc := 0,
    truncRc := 0, fileSz := 0 }

/-- Helper: if `format` is entered unmounted and returns success, the instance
is left unmounted (every success path either never mounts or unmounts again). -/
theorem fsFormat_true_unmounted (env : LfsEnv) (cfg : FSCfg) (s : St)
    (h : s.mounted = false) (hr : (fsFormat env cfg s).1 = true) :
    (fsFormat env cfg s).2.1.mounted = false := by
  by_cases hz : cfg.size = 0
  · simp [fsFormat, hz] at hr
  · cases hf : env.formatOk <;> cases htc : env.hasTimeCallback <;>
      cases hm : s.mounts.headD false <;> cases hc : env.setattrC <;>
      cases ht : env.setattrT <;>
      simp_all [fsFormat, fsFormatTail, tryMount]

/-- C4: `begin()` called while already mounted returns success with the state
unchanged and an empty library-call trace (so no mount and no format is
performed); calling it twice in a row from a mounted state returns success
both times.  The `extFlash->begin()` call it makes first only initializes
GPIO pins and the SPI port and always reports success. -/
theorem begin_idempotent_when_mounted (env : LfsEnv) (cfg : FSCfg) (s : St)
    (h : s.mounted = true) :
    fsBegin env cfg s = (true, s, []) ∧
    fsBegin env cfg (fsBegin env cfg s).2.1 = (true, s, []) := by
  simp [fsBegin, extFlashBeginOk, h]

/-- Witness for `begin_idempotent_when_mounted` at a concrete mounted state. -/
theorem begin_idempotent_witness :
    (⟨true, []⟩ : St).mounted = true ∧
    (fsBegin envDefault ⟨16777216, true⟩ ⟨true, []⟩ = (true, ⟨true, []⟩, []) ∧
      fsBegin envDefault ⟨16777216, true⟩
        (fsBegin envDefault ⟨16777216, true⟩ ⟨true, []⟩).2.1 = (true, ⟨true, []⟩, [])) :=
  ⟨by decide, begin_idempotent_when_mounted envDefault ⟨16777216, true⟩ ⟨true, []⟩ (by decide)⟩

/-- C2 counterexample: with auto-format enabled and a first mount failure,
if the `format()` step fails (`lfs_format` returns an error) then `begin()`
returns failure after performing the format attempt but performs **no** retry
mount at all — the claim's "exactly one retry mount, returning the retry's
result" is false on this input. -/
theorem begin_no_retry_when_format_fails :
    (fsBegin { envDefault with formatOk := false } ⟨4096, true⟩ ⟨false, [false]⟩).1 = false ∧
    (fsBegin { envDefault with formatOk := false } ⟨4096, true⟩ ⟨false, [false]⟩).2.2 =
      [Ev.mount false, Ev.lfsFormat false] ∧
    countMountEvs (afterFormatEvents
      (fsBegin { envDefault with formatOk := false } ⟨4096, true⟩ ⟨false, [false]⟩).2.2) = 0 := by
  decide

/-- C2 (amended): `begin()` on an unmounted instance whose initial mount
fails: with auto-format disabled it performs no format and returns failure
with the instance unmounted; with auto-format enabled it attempts a format —
if the format attempt succeeds it performs exactly one retry mount, returns
the retry's result, and is left mounted iff the retry succeeded; if the
format attempt fails it returns failure without a retry mount. -/
theorem begin_mount_failure_autoformat (env : LfsEnv) (cfg : FSCfg) (s : St)
    (h1 : s.mounted = false) (h2 : cfg.size ≠ 0) (h3 : s.mounts.headD false = false) :
    (cfg.autoFormat = false →
      fsBegin env cfg s = (false, ⟨false, s.mounts.tail⟩, [Ev.mount false])) ∧
    (cfg.autoFormat = true → (fsFormat env cfg ⟨false, s.mounts.tail⟩).1 = false →
      fsBegin env cfg s =
        (false, (fsFormat env cfg ⟨false, s.mounts.tail⟩).2.1,
          Ev.mount false :: (fsFormat env cfg ⟨false, s.mounts.tail⟩).2.2)) ∧
    (cfg.autoFormat = true → (fsFormat env cfg ⟨false, s.mounts.tail⟩).1 = true →
      (fsBegin env cfg s).1 =
        (fsFormat env cfg ⟨false, s.mounts.tail⟩).2.1.mounts.headD false ∧
      (fsBegin env cfg s).2.1.mounted =
        (fsFormat env cfg ⟨false, s.mounts.tail⟩).2.1.mounts.headD false ∧
      (fsBegin env cfg s).2.2 =
        Ev.mount false :: (fsFormat env cfg ⟨false, s.mounts.tail⟩).2.2 ++
          [Ev.mount ((fsFormat env cfg ⟨false, s.mounts.tail⟩).2.1.mounts.headD false)]) := by
  rw [List.headD_eq_head?] at h3
  refine ⟨?_, ?_, ?_⟩
  · intro ha
    simp [fsBegin, extFlashBeginOk, tryMount, h1, h2, h3, ha]
  · intro ha hf
    simp [fsBegin, extFlashBeginOk, tryMount, h1, h2, h3, ha, hf]
  · intro ha hf
    have hm2 := fsFormat_true_unmounted env cfg ⟨false, s.mounts.tail⟩ rfl hf
    simp [fsBegin, extFlashBeginOk, tryMount, h1, h2, h3, ha, hf, hm2]

/-- Witness for `begin_mount_failure_autoformat` at a concrete input. -/
theorem begin_mount_failure_witness :
    ((⟨false, [false, true]⟩ : St).mounted = false ∧ (4096 : Nat) ≠ 0 ∧
      ([false, true].headD false) = false) ∧
    (((⟨4096, true⟩ : FSCfg).autoFormat = false →
      fsBegin envDefault ⟨4096, true⟩ ⟨false, [false, true]⟩ =
        (false, ⟨false, [true]⟩, [Ev.mount false])) ∧
    ((⟨4096, true⟩ : FSCfg).autoFormat = true →
      (fsFormat envDefault ⟨4096, true⟩ ⟨false, [true]⟩).1 = false →
      fsBegin envDefault ⟨4096, true⟩ ⟨false, [false, true]⟩ =
        (false, (fsFormat envDefault ⟨4096, true⟩ ⟨false, [true]⟩).2.1,
          Ev.mount false :: (fsFormat envDefault ⟨4096, true⟩ ⟨false, [true]⟩).2.2)) ∧
    ((⟨4096, true⟩ : FSCfg).autoFormat = true →
      (fsFormat envDefault ⟨4096, true⟩ ⟨false, [true]⟩).1 = true →
      (fsBegin envDefault ⟨4096, true⟩ ⟨false, [false, true]⟩).1 =
        (fsFormat envDefault ⟨4096, true⟩ ⟨false, [true]⟩).2.1.mounts.headD false ∧
      (fsBegin envDefault ⟨4096, true⟩ ⟨false, [false, true]⟩).2.1.mounted =
        (fsFormat envDefault ⟨4096, true⟩ ⟨false, [true]⟩).2.1.mounts.headD false ∧
      (fsBegin envDefault ⟨4096, true⟩ ⟨false, [false, true]⟩).2.2 =
        Ev.mount false :: (fsFormat envDefault ⟨4096, true⟩ ⟨false, [true]⟩).2.2 ++
          [Ev.mount ((fsFormat envDefault ⟨4096, true⟩ ⟨false, [true]⟩).2.1.mounts.headD false)])) :=
  ⟨⟨by decide, by decide, by decide⟩,
    begin_mount_failure_autoformat envDefault ⟨4096, true⟩ ⟨false, [false, true]⟩
      (by decide) (by decide) (by decide)⟩

/-- C5 counterexample: `format()` on an **unmounted** instance, with a time
callback installed, where `lfs_format` succeeds, the transient mount succeeds
and the root `'c'` attribute write fails: it returns failure although the
format step itself succeeded, and it leaves the instance **mounted** — the
claim's "returns the success of the format step itself and leaves the
instance unmounted" is false on this input. -/
theorem format_attr_failure_leaves_mounted :
    ({ envDefault with hasTimeCallback := true, setattrC := false } : LfsEnv).formatOk = true ∧
    (fsFormat { envDefault with hasTimeCallback := true, setattrC := false }
      ⟨4096, true⟩ ⟨false, [true]⟩).1 = false ∧
    (fsFormat { envDefault with hasTimeCallback := true, setattrC := false }
      ⟨4096, true⟩ ⟨false, [true]⟩).2.1.mounted = true := by
  decide

/-- C5 (amended): full characterization of `format()`.  If entered mounted it
unmounts first (the trace starts with an unmount).  If `lfs_format` fails it
returns failure, leaves the instance unmounted and performs no remount.  On
the success paths: with no time callback, a mounted-on-entry instance gets a
final remount whose result is returned and becomes the mounted state, and an
unmounted instance gets success with no mount at all; with a time callback,
a failed root-attribute write returns failure and leaves the instance
mounted, while if the attribute phase completes (or the transient mount
fails) the mounted-on-entry instance again gets the final remount's result
and the unmounted instance gets success and stays unmounted. -/
theorem format_characterization (env : LfsEnv) (cfg : FSCfg) (s : St)
    (hsz : cfg.size ≠ 0) :
    (s.mounted = true → (fsFormat env cfg s).2.2.head? = some Ev.unmount) ∧
    (env.formatOk = false →
      (fsFormat env cfg s).1 = false ∧ (fsFormat env cfg s).2.1.mounted = false ∧
      countMountEvs (fsFormat env cfg s).2.2 = 0) ∧
    (env.formatOk = true → env.hasTimeCallback = false →
      (s.mounted = true →
        (fsFormat env cfg s).1 = s.mounts.headD false ∧
        (fsFormat env cfg s).2.1.mounted = s.mounts.headD false) ∧
      (s.mounted = false →
        (fsFormat env cfg s).1 = true ∧ (fsFormat env cfg s).2.1.mounted = false ∧
        countMountEvs (fsFormat env cfg s).2.2 = 0)) ∧
    (env.formatOk = true → env.hasTimeCallback = true → s.mounts.headD false = true →
      (env.setattrC = false →
        (fsFormat env cfg s).1 = false ∧ (fsFormat env cfg s).2.1.mounted = true) ∧
      (env.setattrC = true → env.setattrT = false →
        (fsFormat env cfg s).1 = false ∧ (fsFormat env cfg s).2.1.mounted = true) ∧
      (env.setattrC = true → env.setattrT = true →
        (s.mounted = true →
          (fsFormat env cfg s).1 = s.mounts.tail.headD false ∧
          (fsFormat env cfg s).2.1.mounted = s.mounts.tail.headD false) ∧
        (s.mounted = false →
          (fsFormat env cfg s).1 = true ∧ (fsFormat env cfg s).2.1.mounted = false))) ∧
    (env.formatOk = true → env.hasTimeCallback = true → s.mounts.headD false = false →
      (s.mounted = true →
        (fsFormat env cfg s).1 = s.mounts.tail.headD false ∧
        (fsFormat env cfg s).2.1.mounted = s.mounts.tail.headD false) ∧
      (s.mounted = false →
        (fsFormat env cfg s).1 = true ∧ (fsFormat env cfg s).2.1.mounted = false)) := by
  cases hm : s.mounted <;> cases hf : env.formatOk <;> cases htc : env.hasTimeCallback <;>
    cases h1 : s.mounts.headD false <;> cases hc : env.setattrC <;>
    cases ht : env.setattrT <;>
    simp_all [fsFormat, fsFormatTail, tryMount, countMountEvs, isMountEv]

/-- Witness for `format_characterization` at a concrete input. -/
theorem format_characterization_witness :
    ((4096 : Nat) ≠ 0) ∧
    (((⟨true, [true]⟩ : St).mounted = true →
      (fsFormat envDefault ⟨4096, true⟩ ⟨true, [true]⟩).2.2.head? = some Ev.unmount) ∧
    (envDefault.formatOk = false →
      (fsFormat envDefault ⟨4096, true⟩ ⟨true, [true]⟩).1 = false ∧
      (fsFormat envDefault ⟨4096, true⟩ ⟨true, [true]⟩).2.1.mounted = false ∧
      countMountEvs (fsFormat envDefault ⟨4096, true⟩ ⟨true, [true]⟩).2.2 = 0) ∧
    (envDefault.formatOk = true → envDefault.hasTimeCallback = false →
      ((⟨true, [true]⟩ : St).mounted = true →
        (fsFormat envDefault ⟨4096, true⟩ ⟨true, [true]⟩).1 = [true].headD false ∧
        (fsFormat envDefault ⟨4096, true⟩ ⟨true, [true]⟩).2.1.mounted = [true].headD false) ∧
      ((⟨true, [true]⟩ : St).mounted = false →
        (fsFormat envDefault ⟨4096, true⟩ ⟨true, [true]⟩).1 = true ∧
        (fsFormat envDefault ⟨4096, true⟩ ⟨true, [true]⟩).2.1.mounted = false ∧
        countMountEvs (fsFormat envDefault ⟨4096, true⟩ ⟨true, [true]⟩).2.2 = 0)) ∧
    (envDefault.formatOk = true → envDefault.hasTimeCallback = true →
        [true].headD false = true →
      (envDefault.setattrC = false →
        (fsFormat envDefault ⟨4096, true⟩ ⟨true, [true]⟩).1 = false ∧
        (fsFormat envDefault ⟨4096, true⟩ ⟨true, [true]⟩).2.1.mounted = true) ∧
      (envDefault.setattrC = true → envDefault.setattrT = false →
        (fsFormat envDefault ⟨4096, true⟩ ⟨true, [true]⟩).1 = false ∧
        (fsFormat envDefault ⟨4096, true⟩ ⟨true, [true]⟩).2.1.mounted = true) ∧
      (envDefault.setattrC = true → envDefault.setattrT = true →
        ((⟨true, [true]⟩ : St).mounted = true →
          (fsFormat envDefault ⟨4096, true⟩ ⟨true, [true]⟩).1 =
            List.headD (List.tail [true]) false ∧
          (fsFormat envDefault ⟨4096, true⟩ ⟨true, [true]⟩).2.1.mounted =
            List.headD (List.tail [true]) false) ∧
        ((⟨true, [true]⟩ : St).mounted = false →
          (fsFormat envDefault ⟨4096, true⟩ ⟨true, [true]⟩).1 = true ∧
          (fsFormat envDefault ⟨4096, true⟩ ⟨true, [true]⟩).2.1.mounted = false))) ∧
    (envDefault.formatOk = true → envDefault.hasTimeCallback = true →
        [true].headD false = false →
      ((⟨true, [true]⟩ : St).mounted = true →
        (fsFormat envDefault ⟨4096, true⟩ ⟨true, [true]⟩).1 =
          List.headD (List.tail [true]) false ∧
        (fsFormat envDefault ⟨4096, true⟩ ⟨true, [true]⟩).2.1.mounted =
          List.headD (List.tail [true]) false) ∧
      ((⟨true, [true]⟩ : St).mounted = false →
        (fsFormat envDefault ⟨4096, true⟩ ⟨true, [true]⟩).1 = true ∧
        (fsFormat envDefault ⟨4096, true⟩ ⟨true, [true]⟩).2.1.mounted = false))) :=
  ⟨by decide, format_characterization envDefault ⟨4096, true⟩ ⟨true, [true]⟩ (by decide)⟩

/-! ## Filesystem adapter: path helpers and path operations -/

/-- `ext_LittleFSImpl::pathValid` (src/ext_LittleFS.h lines 615-637): every
slash-separated component, including the terminal file name, must be shorter
than `LFS_NAME_MAX` (255). -/
def pathValid (p : List Char) : Bool :=
  if hp : p = [] then true
  else
    let seg := p.takeWhile (fun c => c ≠ '/')
    if seg.length = p.length then decide (p.length < 255)
    else if 255 ≤ seg.length then false
    else pathValid (p.drop (seg.length + 1))
termination_by p.length
decreasing_by
  simp only [List.length_drop]
  have h0 : 0 < p.length := List.length_pos.mpr hp
  omega

/-- Drop trailing '/' characters (`openDir`'s normalization loop,
src/ext_littleFS.cpp lines 142-145). -/
def dropTrailingSlashes (p : List Char) : List Char :=
  (p.reverse.dropWhile (fun c => c = '/')).reverse

/-- The part of `p` strictly before its last '/' (the effect of
`ptr = strrchr(pathStr, '/'); *ptr = 0;`). -/
def upToLastSlash (p : List Char) : List Char :=
  ((p.reverse.dropWhile (fun c => c ≠ '/')).drop 1).reverse

/-- The part of `p` strictly after its last '/' (`ptr + 1`). -/
def afterLastSlash (p : List Char) : List Char :=
  (p.reverse.takeWhile (fun c => c ≠ '/')).reverse

theorem dropWhile_length_le (q : Char → Bool) :
    ∀ l : List Char, (List.dropWhile q l).length ≤ l.length := by
  intro l
  induction l with
  | nil => simp
  | cons a t ih =>
    by_cases hq : q a
    · simp only [List.dropWhile_cons, hq, if_true, List.length_cons]
      omega
    · simp [List.dropWhile_cons, hq]

/-- The successive ancestor prefixes on which `ext_LittleFSImpl::remove`
silently calls `lfs_remove` after removing the target (src/ext_LittleFS.h
lines 289-301): chop at the last '/' repeatedly until no slash is left. -/
def pruneAncestors (p : List Char) : List (List Char) :=
  if h : '/' ∈ p then
    let q := upToLastSlash p
    q :: pruneAncestors q
  else []
termination_by p.length
decreasing_by
  simp only [upToLastSlash, List.length_reverse, List.length_drop]
  have hle := dropWhile_length_le (fun c => decide (c ≠ '/')) p.reverse
  simp only [List.length_reverse] at hle
  have h0 : 0 < p.length := List.length_pos.mpr (List.ne_nil_of_mem h)
  omega

/-- `ext_LittleFSImpl::exists` (src/ext_LittleFS.h lines 216-225). -/
def fsExists (env : LfsEnv) (s : St) (path : List Char) : Bool × List Ev :=
  if s.mounted = false ∨ path = [] then (false, [])
  else (env.statOk, [Ev.statP path])

/-- `ext_LittleFSImpl::rename` (src/ext_LittleFS.h lines 235-248). -/
def fsRename (env : LfsEnv) (s : St) (pathFrom pathTo : List Char) : Bool × List Ev :=
  if s.mounted = false ∨ pathFrom = [] ∨ pathTo = [] then (false, [])
  else (env.renameOk, [Ev.renameP pathFrom pathTo])

/-- `ext_LittleFSImpl::remove` (src/ext_LittleFS.h lines 277-303): remove the
entry; on success also try to remove every ancestor prefix, ignoring their
results. -/
def fsRemove (env : LfsEnv) (s : St) (path : List Char) : Bool × List Ev :=
  if s.mounted = false ∨ path = [] then (false, [])
  else if env.removeOk = false then (false, [Ev.removeP path])
  else (true, Ev.removeP path :: (pruneAncestors path).map Ev.removeP)

/-- `ext_LittleFSImpl::rmdir` (src/ext_LittleFS.h lines 337-340): the same
call as `remove`. -/
def fsRmdir (env : LfsEnv) (s : St) (path : List Char) : Bool × List Ev :=
  fsRemove env s path

/-- `ext_LittleFSImpl::mkdir` (src/ext_LittleFS.h lines 311-329): create the
directory; on success, if a time callback exists, attach a 'c' attribute.
The returned value is the `lfs_mkdir` result regardless of the attribute
write. -/
def fsMkdir (env : LfsEnv) (s : St) (path : List Char) : Bool × List Ev :=
  if s.mounted = false ∨ path = [] then (false, [])
  else if env.mkdirOk ∧ env.hasTimeCallback then
    (env.mkdirOk, [Ev.mkdirP path, Ev.setattr 'c' env.setattrC])
  else (env.mkdirOk, [Ev.mkdirP path])

/-- Model of `lfs_getattr`: returns the number of bytes read, which is the
minimum of the stored attribute size and the requested length, or `none` if
no such attribute is stored. -/
def getattrSize (stored : Option (Nat × Int)) (req : Nat) : Option Nat :=
  stored.map (fun sv => min sv.1 req)

/-- The timestamp value held by a stored attribute (0 if absent). -/
def attrVal (stored : Option (Nat × Int)) : Int :=
  match stored with
  | some sv => sv.2
  | none => 0

/-- Result record of `ext_LittleFSImpl::stat`. -/
structure FSStatR where
  size : Nat
  isDir : Bool
  ctime : Int
  deriving DecidableEq, Repr

/-- `ext_LittleFSImpl::stat` (src/ext_LittleFS.h lines 473-497). -/
def fsStat (env : LfsEnv) (s : St) (path : List Char) : Option FSStatR × List Ev :=
  if s.mounted = false ∨ path = [] then (none, [])
  else if env.statOk = false then (none, [Ev.statP path])
  else
    let sz := if env.statIsDir then 0 else env.statSize
    let ct := if getattrSize env.attrC 8 = some 8 then attrVal env.attrC else 0
    (some ⟨sz, env.statIsDir, ct⟩, [Ev.statP path, Ev.getattrE 'c'])

/-! ## Filesystem adapter: file and directory objects -/

/-- The LittleFS open-flag bits assembled by `ext_LittleFSImpl::_getFlags`
(src/ext_LittleFS.h lines 579-607). -/
structure LfsFlags where
  creat : Bool
  append : Bool
  trunc : Bool
  rdonly : Bool
  wronly : Bool
  deriving DecidableEq, Repr

/-- `OpenMode` bits of the adapter interface. -/
structure OpenModeArg where
  creat : Bool
  append : Bool
  truncate : Bool
  deriving DecidableEq, Repr

/-- `AccessMode` bits of the adapter interface. -/
structure AccessModeArg where
  amRead : Bool
  amWrite : Bool
  deriving DecidableEq, Repr

/-- `ext_LittleFSImpl::_getFlags` (src/ext_LittleFS.h lines 579-607). -/
def getFlags (om : OpenModeArg) (am : AccessModeArg) : LfsFlags :=
  { creat := om.creat, append := om.append, trunc := om.truncate,
    rdonly := am.amRead, wronly := am.amWrite }

/-- State of an `ext_LittleFSFileImpl` object: `_opened`, whether `_fd` is
non-null, `_flags`, `_creation` and `_name`. -/
structure FileObj where
  opened : Bool
  hasFd : Bool
  flags : LfsFlags
  creation : Int
  name : List Char
  deriving DecidableEq, Repr

/-- Prefixes of `p` ending just before each '/', in order: the arguments of
the silent `lfs_mkdir` calls in `ext_LittleFSImpl::open`
(src/ext_littleFS.cpp lines 72-90). -/
def mkdirPrefixesGo (acc : List Char) : List Char → List (List Char)
  | [] => []
  | c :: rest =>
    if c = '/' then acc :: mkdirPrefixesGo (acc ++ [c]) rest
    else mkdirPrefixesGo (acc ++ [c]) rest

def mkdirPrefixes (p : List Char) : List (List Char) :=
  mkdirPrefixesGo [] p

/-- `ext_LittleFSImpl::open` (src/ext_littleFS.cpp lines 51-126).  Returns
the constructed file object (if any) and the trace of library calls. -/
def fsOpen (env : LfsEnv) (s : St) (path : List Char)
    (om : OpenModeArg) (am : AccessModeArg) : Option FileObj × List Ev :=
  if s.mounted = false then (none, [])
  else if path = [] then (none, [])
  else if pathValid path = false then (none, [])
  else
    let flags := getFlags om am
    let e1 := if om.creat ∧ '/' ∈ path then (mkdirPrefixes path).map Ev.mkdirP else []
    let pc :=
      if env.hasTimeCallback ∧ om.creat then
        if env.fileExists then ((0 : Int), [Ev.fileOpen, Ev.fileClose])
        else (env.timeNow, [Ev.fileOpen])
      else ((0 : Int), ([] : List Ev))
    match env.openRc with
    | .isdir => (some ⟨true, false, flags, pc.1, path⟩, e1 ++ pc.2 ++ [Ev.fileOpen])
    | .ok => (some ⟨true, true, flags, pc.1, path⟩, e1 ++ pc.2 ++ [Ev.fileOpen, Ev.fileSync])
    | .err => (none, e1 ++ pc.2 ++ [Ev.fileOpen])

/-- State of an `ext_LittleFSDirImpl` object. -/
structure DirObj where
  pattern : List Char
  dirPath : List Char
  valid : Bool
  opened : Bool
  deriving DecidableEq, Repr

/-- `ext_LittleFSImpl::openDir` (src/ext_littleFS.cpp lines 134-218). -/
def openDir (env : LfsEnv) (s : St) (path : List Char) : Option DirObj × List Ev :=
  if s.mounted = false then (none, [])
  else
    let p := dropTrailingSlashes path
    let dpf : (List Char × List Char × List Char) × List Ev :=
      if p = [] then ((['/'], [], p), [])
      else
        match env.dirStat with
        | some true => ((p, [], p), [Ev.statP p])
        | some false =>
          if '/' ∈ p then ((upToLastSlash p, afterLastSlash p, upToLastSlash p), [Ev.statP p])
          else ((['/'], p, p), [Ev.statP p])
        | none =>
          if '/' ∈ p then ((upToLastSlash p, afterLastSlash p, upToLastSlash p), [Ev.statP p])
          else ((['/'], p, p), [Ev.statP p])
    if env.dirOpenOk = false then (none, dpf.2 ++ [Ev.dirOpenP dpf.1.1])
    else
      (some ⟨dpf.1.2.1, dpf.1.2.2, false, true⟩,
        dpf.2 ++ [Ev.dirOpenP dpf.1.1, Ev.dirRead, Ev.dirRead])

/-- `ext_LittleFSFileImpl::close` (src/ext_LittleFS.h lines 840-867): close
the handle, then — only with a time callback and only for a handle opened
for writing — write the 'c' attribute (if a creation time was captured) and
the 't' attribute. -/
def fileCloseOp (env : LfsEnv) (f : FileObj) : FileObj × List Ev :=
  if f.opened ∧ f.hasFd then
    ({ f with opened := false },
      Ev.fileClose ::
        (if env.hasTimeCallback ∧ f.flags.wronly then
          (if f.creation ≠ 0 then [Ev.setattr 'c' env.setattrC] else []) ++
            [Ev.setattr 't' env.setattrT]
        else []))
  else (f, [])

/-- `~ext_LittleFSFileImpl` (src/ext_LittleFS.h lines 682-688): run `close()`
if the object is still opened. -/
def fileDtor (env : LfsEnv) (f : FileObj) : List Ev :=
  if f.opened then (fileCloseOp env f).2 else []

/-- `ext_LittleFSFileImpl::write` (src/ext_LittleFS.h lines 697-710). -/
def fileWriteOp (env : LfsEnv) (f : FileObj) (bufValid : Bool) : Nat × List Ev :=
  if ¬f.opened ∨ ¬f.hasFd ∨ ¬bufValid then (0, [])
  else if env.writeRc < 0 then (0, [Ev.fileWrite])
  else (env.writeRc.toNat, [Ev.fileWrite])

/-- `ext_LittleFSFileImpl::read` (src/ext_LittleFS.h lines 719-733). -/
def fileReadOp (env : LfsEnv) (f : FileObj) (bufValid : Bool) : Nat × List Ev :=
  if ¬f.opened ∨ ¬f.hasFd ∨ ¬bufValid then (0, [])
  else if env.readRc < 0 then (0, [Ev.fileRead])
  else (env.readRc.toNat, [Ev.fileRead])

/-- `ext_LittleFSFileImpl::position` (src/ext_LittleFS.h lines 790-803). -/
def filePositionOp (env : LfsEnv) (f : FileObj) : Nat × List Ev :=
  if ¬f.opened ∨ ¬f.hasFd then (0, [])
  else if env.tellRc < 0 then (0, [Ev.fileTell])
  else (env.tellRc.toNat, [Ev.fileTell])

/-- `ext_LittleFSFileImpl::size` (src/ext_LittleFS.h lines 810-813). -/
def fileSizeOp (env : LfsEnv) (f : FileObj) : Nat × List Ev :=
  if f.opened ∧ f.hasFd then (env.fileSz, [Ev.fileSizeQ]) else (0, [])

/-- Seek modes of the adapter interface. -/
inductive SeekModeArg where
  | seekSet
  | seekCur
  | seekEnd
  deriving DecidableEq, Repr

/-- `ext_LittleFSFileImpl::seek` (src/ext_LittleFS.h lines 759-783).  The
source reverts a seek past the end by recursively seeking back to the old
position ("pretend the seek() never happened"); that recursion is bounded
here by `fuel`, which suffices because the revert target was a valid
position. -/
def fileSeekOp (env : LfsEnv) : Nat → FileObj → Nat → SeekModeArg → Bool × List Ev
  | 0, _, _, _ => (false, [])
  | fuel + 1, f, pos, _ =>
    if ¬f.opened ∨ ¬f.hasFd then (false, [])
    else
      let lastPos := filePositionOp env f
      if env.seekRc < 0 then (false, lastPos.2 ++ [Ev.fileSeek])
      else
        let p2 := filePositionOp env f
        let sz := fileSizeOp env f
        if p2.1 > sz.1 then
          let rev := fileSeekOp env fuel f lastPos.1 .seekSet
          (false, lastPos.2 ++ [Ev.fileSeek] ++ p2.2 ++ sz.2 ++ rev.2)
        else (true, lastPos.2 ++ [Ev.fileSeek] ++ p2.2 ++ sz.2)

/-- `ext_LittleFSFileImpl::truncate` (src/ext_LittleFS.h lines 821-834). -/
def fileTruncateOp (env : LfsEnv) (f : FileObj) : Bool × List Ev :=
  if ¬f.opened ∨ ¬f.hasFd then (false, [])
  else if env.truncRc < 0 then (false, [Ev.fileTrunc])
  else (true, [Ev.fileTrunc])

/-- `ext_LittleFSFileImpl::isFile` (src/ext_LittleFS.h lines 941-950). -/
def fileIsFile (env : LfsEnv) (f : FileObj) : Bool × List Ev :=
  if ¬f.opened ∨ ¬f.hasFd then (false, [])
  else ((decide (env.statOk ∧ ¬env.statIsDir) : Bool), [Ev.statP f.name])

/-- `ext_LittleFSFileImpl::isDirectory` (src/ext_LittleFS.h lines 957-970):
a name-only object (null `_fd`) answers `true` without any library call. -/
def fileIsDirectory (env : LfsEnv) (f : FileObj) : Bool × List Ev :=
  if ¬f.opened then (false, [])
  else if ¬f.hasFd then (true, [])
  else ((decide (env.statOk ∧ env.statIsDir) : Bool), [Ev.statP f.name])

/-! ## Timestamp attribute readers -/

/-- `ext_LittleFSImpl::getCreationTime` (src/ext_LittleFS.h lines 504-521):
read the root 'c' attribute with an 8-byte buffer; if that does not yield 8
bytes, fall back to a 4-byte legacy read and promote the value. -/
def rootGetCreationTime (stored : Option (Nat × Int)) : Int :=
  if getattrSize stored 8 = some 8 then attrVal stored
  else if getattrSize stored 4 = some 4 then attrVal stored
  else 0

/-- `ext_LittleFSFileImpl::getLastWrite` (src/ext_LittleFS.h lines 874-886):
reads 't' with `sizeof(time_t)` = 8 bytes only; any other stored size yields
0. -/
def fileGetLastWrite (f : FileObj) (stored : Option (Nat × Int)) : Int :=
  if f.opened ∧ f.hasFd then
    if getattrSize stored 8 = some 8 then attrVal stored else 0
  else 0

/-- `ext_LittleFSFileImpl::getCreationTime` (src/ext_LittleFS.h lines
893-905): reads 'c' with `sizeof(time_t)` = 8 bytes only. -/
def fileGetCreationTime (f : FileObj) (stored : Option (Nat × Int)) : Int :=
  if f.opened ∧ f.hasFd then
    if getattrSize stored 8 = some 8 then attrVal stored else 0
  else 0

/-- `ext_LittleFSDirImpl::_getAttr` (src/ext_LittleFS.h lines 1201-1214). -/
def dirGetAttr (valid : Bool) (stored : Option (Nat × Int)) (len : Nat) : Option Int :=
  if ¬valid ∨ len = 0 then none
  else if getattrSize stored len = some len then some (attrVal stored) else none

/-- `ext_LittleFSDirImpl::fileTime` (src/ext_LittleFS.h lines 1080-1100):
8-byte read of 't', else 4-byte legacy read silently promoted. -/
def dirFileTime (valid : Bool) (stored : Option (Nat × Int)) : Int :=
  match dirGetAttr valid stored 8 with
  | some t => t
  | none =>
    match dirGetAttr valid stored 4 with
    | some t => t
    | none => 0

/-- `ext_LittleFSDirImpl::fileCreationTime` (src/ext_LittleFS.h lines
1107-1127): 8-byte read of 'c', else 4-byte legacy read silently promoted. -/
def dirFileCreationTime (valid : Bool) (stored : Option (Nat × Int)) : Int :=
  match dirGetAttr valid stored 8 with
  | some t => t
  | none =>
    match dirGetAttr valid stored 4 with
    | some t => t
    | none => 0

/-! ## Constructor configuration -/

/-- The `_lfs_cfg` size fields set by the `ext_LittleFSImpl` constructor
(src/ext_LittleFS.h lines 104-124). -/
structure LfsConfigModel where
  readSize : Nat
  progSize : Nat
  blockSize : Nat
  blockCount : Nat
  blockCycles : Nat
  cacheSize : Nat
  lookaheadSize : Nat
  nameMax : Nat
  deriving DecidableEq, Repr

/-- The constructor's configuration: in particular
`block_count = _blockSize ? _size / _blockSize : 0`
(src/ext_LittleFS.h line 108). -/
def mkLfsConfig (size pageSz blockSize : Nat) : LfsConfigModel :=
  { readSize := pageSz, progSize := pageSz, blockSize := blockSize,
    blockCount := if blockSize ≠ 0 then size / blockSize else 0,
    blockCycles := 500, cacheSize := pageSz, lookaheadSize := 16, nameMax := 255 }

/-! ## Claim theorems for the driver and the adapter objects -/

/-- C1 counterexample: at the non-page-aligned start address 100 with a
200-byte buffer, `W25Q128::program` issues a single page-program command
covering bytes 100..299, which spans the page boundary at 256 — the
command's range does not lie within one 256-byte page. -/
theorem program_unaligned_crosses_page_boundary :
    programChunks 100 200 = [(100, 200)] ∧ samePage (100, 200) = false := by
  constructor
  · rw [programChunks_pos 100 200 (by decide)]
    simp [programChunks_zero]
  · decide

/-- C1 (amended): for every **page-aligned** start address and every input
buffer, no single page-program command issued by `W25Q128::program` spans
two pages: each command's written byte range lies entirely within one
256-byte page. -/
theorem program_single_page_of_aligned_addr (addr size : Nat)
    (ha : addr % 256 = 0) (hs : 0 < size) :
    ∀ c ∈ programChunks addr size, samePage c = true :=
  programChunks_samePage_of_aligned addr size ha

/-- Witness for `program_single_page_of_aligned_addr` at address 512,
size 300. -/
theorem program_single_page_witness :
    512 % 256 = 0 ∧ 0 < 300 ∧ ∀ c ∈ programChunks 512 300, samePage c = true :=
  ⟨by decide, by decide, program_single_page_of_aligned_addr 512 300 (by decide) (by decide)⟩

/-- C6: for every size > 0 and every start address, `W25Q128::program`
issues exactly ⌈size/256⌉ = (size+255)/256 page-program commands, each
carrying at most 256 bytes (and at least one), the chunk sizes sum to the
input size, and the address advances by the chunk size after each command
(the commands are contiguous from the start address). -/
theorem program_chunk_count_exact (addr size : Nat) (hs : 0 < size) :
    (programChunks addr size).length = (size + 255) / 256 ∧
    (∀ c ∈ programChunks addr size, 0 < c.2 ∧ c.2 ≤ 256) ∧
    ((programChunks addr size).map Prod.snd).sum = size ∧
    contiguousFrom addr (programChunks addr size) = true :=
  ⟨programChunks_length addr size, programChunks_sizes addr size,
    programChunks_sum addr size, programChunks_contiguous addr size⟩

/-- Witness for `program_chunk_count_exact` at address 16, size 700. -/
theorem program_chunk_count_witness :
    0 < 700 ∧
    ((programChunks 16 700).length = (700 + 255) / 256 ∧
      (∀ c ∈ programChunks 16 700, 0 < c.2 ∧ c.2 ≤ 256) ∧
      ((programChunks 16 700).map Prod.snd).sum = 700 ∧
      contiguousFrom 16 (programChunks 16 700) = true) :=
  ⟨by decide, program_chunk_count_exact 16 700 (by decide)⟩

/-- C3: every path operation of the adapter called while the instance is not
mounted returns its failure value immediately with an **empty** trace of
library calls; since the flash chip is reachable only through the LittleFS
library callbacks, no block-device read, program or erase is issued. -/
theorem path_ops_unmounted_fail_no_io (env : LfsEnv) (s : St) (path pathTo : List Char)
    (om : OpenModeArg) (am : AccessModeArg) (h : s.mounted = false) :
    fsOpen env s path om am = (none, []) ∧
    openDir env s path = (none, []) ∧
    fsExists env s path = (false, []) ∧
    fsRename env s path pathTo = (false, []) ∧
    fsRemove env s path = (false, []) ∧
    fsRmdir env s path = (false, []) ∧
    fsMkdir env s path = (false, []) ∧
    fsStat env s path = (none, []) := by
  simp [fsOpen, openDir, fsExists, fsRename, fsRemove, fsRmdir, fsMkdir, fsStat, h]

/-- Witness for `path_ops_unmounted_fail_no_io` on an unmounted instance. -/
theorem path_ops_unmounted_witness :
    (⟨false, []⟩ : St).mounted = false ∧
    (fsOpen envDefault ⟨false, []⟩ ['a'] ⟨true, false, false⟩ ⟨true, true⟩ = (none, []) ∧
      openDir envDefault ⟨false, []⟩ ['a'] = (none, []) ∧
      fsExists envDefault ⟨false, []⟩ ['a'] = (false, []) ∧
      fsRename envDefault ⟨false, []⟩ ['a'] ['b'] = (false, []) ∧
      fsRemove envDefault ⟨false, []⟩ ['a'] = (false, []) ∧
      fsRmdir envDefault ⟨false, []⟩ ['a'] = (false, []) ∧
      fsMkdir envDefault ⟨false, []⟩ ['a'] = (false, []) ∧
      fsStat envDefault ⟨false, []⟩ ['a'] = (none, [])) :=
  ⟨by decide,
    path_ops_unmounted_fail_no_io envDefault ⟨false, []⟩ ['a'] ['b']
      ⟨true, false, false⟩ ⟨true, true⟩ (by decide)⟩

/-- C7 counterexample: a 'c' attribute stored in the 4-byte legacy form with
value 5 is promoted by the root-level reader, but the file-level
`getCreationTime` does **not** accept it: it returns 0, not the promoted
value — so not every reader of 'c'/'t' accepts the legacy form. -/
theorem file_timestamp_no_legacy_fallback :
    rootGetCreationTime (some (4, 5)) = 5 ∧
    fileGetCreationTime ⟨true, true, ⟨false, false, false, true, false⟩, 0, ['a']⟩
      (some (4, 5)) = 0 ∧
    fileGetLastWrite ⟨true, true, ⟨false, false, false, true, false⟩, 0, ['a']⟩
      (some (4, 5)) = 0 ∧
    (5 : Int) ≠ 0 := by
  decide

/-- C7 (amended): the root-level `getCreationTime` and the directory-iterator
`fileCreationTime` and `fileTime` accept both the canonical 8-byte form and
the 4-byte legacy form (promoting the latter); the file-level
`getCreationTime` and `getLastWrite` accept only the 8-byte form and return
0 for a 4-byte legacy attribute. -/
theorem timestamp_legacy_fallback_readers (v : Int) (fl : LfsFlags) (cr : Int)
    (nm : List Char) :
    rootGetCreationTime (some (8, v)) = v ∧
    rootGetCreationTime (some (4, v)) = v ∧
    dirFileTime true (some (8, v)) = v ∧
    dirFileTime true (some (4, v)) = v ∧
    dirFileCreationTime true (some (8, v)) = v ∧
    dirFileCreationTime true (some (4, v)) = v ∧
    fileGetCreationTime ⟨true, true, fl, cr, nm⟩ (some (8, v)) = v ∧
    fileGetCreationTime ⟨true, true, fl, cr, nm⟩ (some (4, v)) = 0 ∧
    fileGetLastWrite ⟨true, true, fl, cr, nm⟩ (some (8, v)) = v ∧
    fileGetLastWrite ⟨true, true, fl, cr, nm⟩ (some (4, v)) = 0 := by
  simp [rootGetCreationTime, dirFileTime, dirFileCreationTime, dirGetAttr,
    fileGetCreationTime, fileGetLastWrite, getattrSize, attrVal]

/-- C8: for a file object with a live handle, `close()` emits the handle
close followed — only when a time callback exists and the handle was opened
for writing — by the 'c' attribute write (exactly when a creation timestamp
was captured at open, i.e. `_creation` is non-zero) and the 't' attribute
write; for a handle not opened for writing no attribute is written.  A
second `close()` and destruction after `close()` do nothing, and destruction
without a prior `close()` performs exactly the same close sequence — so the
sequence runs exactly once in total. -/
theorem close_attribute_writes_once (env : LfsEnv) (f : FileObj)
    (h1 : f.opened = true) (h2 : f.hasFd = true) :
    (env.hasTimeCallback = true → f.flags.wronly = true →
      (f.creation ≠ 0 → (fileCloseOp env f).2 =
        [Ev.fileClose, Ev.setattr 'c' env.setattrC, Ev.setattr 't' env.setattrT]) ∧
      (f.creation = 0 → (fileCloseOp env f).2 =
        [Ev.fileClose, Ev.setattr 't' env.setattrT])) ∧
    (f.flags.wronly = false → (fileCloseOp env f).2 = [Ev.fileClose]) ∧
    (env.hasTimeCallback = false → (fileCloseOp env f).2 = [Ev.fileClose]) ∧
    (fileCloseOp env f).1.opened = false ∧
    fileCloseOp env (fileCloseOp env f).1 = ((fileCloseOp env f).1, []) ∧
    fileDtor env (fileCloseOp env f).1 = [] ∧
    fileDtor env f = (fileCloseOp env f).2 := by
  cases htc : env.hasTimeCallback <;> cases hw : f.flags.wronly <;>
    by_cases hcr : f.creation = 0 <;>
    simp_all [fileCloseOp, fileDtor]

/-- Witness for `close_attribute_writes_once` at a concrete writable file. -/
theorem close_attribute_writes_witness :
    ((⟨true, true, ⟨true, false, false, false, true⟩, 9, ['a']⟩ : FileObj).opened = true ∧
      (⟨true, true, ⟨true, false, false, false, true⟩, 9, ['a']⟩ : FileObj).hasFd = true) ∧
    ((({ envDefault with hasTimeCallback := true } : LfsEnv).hasTimeCallback = true →
      (⟨true, true, ⟨true, false, false, false, true⟩, 9, ['a']⟩ : FileObj).flags.wronly = true →
      ((⟨true, true, ⟨true, false, false, false, true⟩, 9, ['a']⟩ : FileObj).creation ≠ 0 →
        (fileCloseOp { envDefault with hasTimeCallback := true }
            ⟨true, true, ⟨true, false, false, false, true⟩, 9, ['a']⟩).2 =
          [Ev.fileClose,
            Ev.setattr 'c' ({ envDefault with hasTimeCallback := true } : LfsEnv).setattrC,
            Ev.setattr 't' ({ envDefault with hasTimeCallback := true } : LfsEnv).setattrT]) ∧
      ((⟨true, true, ⟨true, false, false, false, true⟩, 9, ['a']⟩ : FileObj).creation = 0 →
        (fileCloseOp { envDefault with hasTimeCallback := true }
            ⟨true, true, ⟨true, false, false, false, true⟩, 9, ['a']⟩).2 =
          [Ev.fileClose,
            Ev.setattr 't' ({ envDefault with hasTimeCallback := true } : LfsEnv).setattrT])) ∧
    ((⟨true, true, ⟨true, false, false, false, true⟩, 9, ['a']⟩ : FileObj).flags.wronly = false →
      (fileCloseOp { envDefault with hasTimeCallback := true }
          ⟨true, true, ⟨true, false, false, false, true⟩, 9, ['a']⟩).2 = [Ev.fileClose]) ∧
    (({ envDefault with hasTimeCallback := true } : LfsEnv).hasTimeCallback = false →
      (fileCloseOp { envDefault with hasTimeCallback := true }
          ⟨true, true, ⟨true, false, false, false, true⟩, 9, ['a']⟩).2 = [Ev.fileClose]) ∧
    (fileCloseOp { envDefault with hasTimeCallback := true }
        ⟨true, true, ⟨true, false, false, false, true⟩, 9, ['a']⟩).1.opened = false ∧
    fileCloseOp { envDefault with hasTimeCallback := true }
        (fileCloseOp { envDefault with hasTimeCallback := true }
          ⟨true, true, ⟨true, false, false, false, true⟩, 9, ['a']⟩).1 =
      ((fileCloseOp { envDefault with hasTimeCallback := true }
          ⟨true, true, ⟨true, false, false, false, true⟩, 9, ['a']⟩).1, []) ∧
    fileDtor { envDefault with hasTimeCallback := true }
        (fileCloseOp { envDefault with hasTimeCallback := true }
          ⟨true, true, ⟨true, false, false, false, true⟩, 9, ['a']⟩).1 = [] ∧
    fileDtor { envDefault with hasTimeCallback := true }
        ⟨true, true, ⟨true, false, false, false, true⟩, 9, ['a']⟩ =
      (fileCloseOp { envDefault with hasTimeCallback := true }
          ⟨true, true, ⟨true, false, false, false, true⟩, 9, ['a']⟩).2) :=
  ⟨⟨by decide, by decide⟩,
    close_attribute_writes_once { envDefault with hasTimeCallback := true }
      ⟨true, true, ⟨true, false, false, false, true⟩, 9, ['a']⟩ (by decide) (by decide)⟩

/-- C9: the constructor's `block_count = _blockSize ? _size / _blockSize : 0`
is safe for `blockSize = 0` (the count is defined as 0, no division by zero
is performed) and equals `size / blockSize` for every positive block size. -/
theorem blockCount_safe_zero_blockSize (size pageSz blockSize : Nat)
    (h : 0 < blockSize) :
    (mkLfsConfig size pageSz 0).blockCount = 0 ∧
    (mkLfsConfig size pageSz blockSize).blockCount = size / blockSize := by
  have h' : blockSize ≠ 0 := Nat.pos_iff_ne_zero.mp h
  constructor <;> simp [mkLfsConfig, h']

/-- Witness for `blockCount_safe_zero_blockSize` on the 16 MiB / 4 KiB
geometry of the shipped instance. -/
theorem blockCount_witness :
    0 < 4096 ∧
    ((mkLfsConfig 16777216 256 0).blockCount = 0 ∧
      (mkLfsConfig 16777216 256 4096).blockCount = 16777216 / 4096) :=
  ⟨by decide, blockCount_safe_zero_blockSize 16777216 256 4096 (by decide)⟩

/-- C10: a name-only file object — returned by `open` when the underlying
`lfs_file_open` reports `LFS_ERR_ISDIR`, carrying a null `_fd` — answers
`write`/`read` with 0, `seek`/`truncate`/`isFile` with false and
`isDirectory` with true, all with an empty trace of library file
operations. -/
theorem name_only_file_behaviour (env : LfsEnv) (s : St) (path : List Char)
    (om : OpenModeArg) (am : AccessModeArg) (f : FileObj)
    (hrc : env.openRc = OpenRc.isdir)
    (hf : (fsOpen env s path om am).1 = some f) :
    f.hasFd = false ∧ f.opened = true ∧
    (∀ bufValid, fileWriteOp env f bufValid = (0, [])) ∧
    (∀ bufValid, fileReadOp env f bufValid = (0, [])) ∧
    (∀ fuel pos mode, fileSeekOp env fuel f pos mode = (false, [])) ∧
    fileTruncateOp env f = (false, []) ∧
    fileIsFile env f = (false, []) ∧
    fileIsDirectory env f = (true, []) := by
  have hof : f.opened = true ∧ f.hasFd = false := by
    unfold fsOpen at hf
    by_cases h1 : s.mounted = false
    · simp [h1] at hf
    · by_cases h2 : path = []
      · simp [h1, h2] at hf
      · by_cases h3 : pathValid path = false
        · simp [h1, h2, h3] at hf
        · simp only [h1, h2, h3, hrc, if_false, ite_false] at hf
          simp at hf
          rw [← hf]
          exact ⟨rfl, rfl⟩
  obtain ⟨hop, hfd⟩ := hof
  refine ⟨hfd, hop, ?_, ?_, ?_, ?_, ?_, ?_⟩
  · intro bufValid
    simp [fileWriteOp, hop, hfd]
  · intro bufValid
    simp [fileReadOp, hop, hfd]
  · intro fuel pos mode
    cases fuel with
    | zero => rfl
    | succ n => simp [fileSeekOp, hop, hfd]
  · simp [fileTruncateOp, hop, hfd]
  · simp [fileIsFile, hop, hfd]
  · simp [fileIsDirectory, hop, hfd]

/-- Witness for `name_only_file_behaviour`: opening path "a" on a mounted
instance with the library reporting is-a-directory. -/
theorem name_only_file_witness :
    ({ envDefault with openRc := OpenRc.isdir } : LfsEnv).openRc = OpenRc.isdir ∧
    ((⟨true, false, ⟨false, false, false, true, false⟩, 0, ['a']⟩ : FileObj).hasFd = false ∧
      (⟨true, false, ⟨false, false, false, true, false⟩, 0, ['a']⟩ : FileObj).opened = true ∧
      (∀ bufValid, fileWriteOp { envDefault with openRc := OpenRc.isdir }
        ⟨true, false, ⟨false, false, false, true, false⟩, 0, ['a']⟩ bufValid = (0, [])) ∧
      (∀ bufValid, fileReadOp { envDefault with openRc := OpenRc.isdir }
        ⟨true, false, ⟨false, false, false, true, false⟩, 0, ['a']⟩ bufValid = (0, [])) ∧
      (∀ fuel pos mode, fileSeekOp { envDefault with openRc := OpenRc.isdir } fuel
        ⟨true, false, ⟨false, false, false, true, false⟩, 0, ['a']⟩ pos mode = (false, [])) ∧
      fileTruncateOp { envDefault with openRc := OpenRc.isdir }
        ⟨true, false, ⟨false, false, false, true, false⟩, 0, ['a']⟩ = (false, []) ∧
      fileIsFile { envDefault with openRc := OpenRc.isdir }
        ⟨true, false, ⟨false, false, false, true, false⟩, 0, ['a']⟩ = (false, []) ∧
      fileIsDirectory { envDefault with openRc := OpenRc.isdir }
        ⟨true, false, ⟨false, false, false, true, false⟩, 0, ['a']⟩ = (true, [])) :=
  ⟨by decide,
    name_only_file_behaviour { envDefault with openRc := OpenRc.isdir } ⟨true, []⟩ ['a']
      ⟨false, false, false⟩ ⟨true, false⟩
      ⟨true, false, ⟨false, false, false, true, false⟩, 0, ['a']⟩
      (by decide)
      (by simp [fsOpen, getFlags, pathValid])⟩

end ExternalFlash
